import Mathlib

/-!
Verification development for the vibe-todo frontend: a shallow embedding of
`src/api/todoApi.js` and the action handlers of `src/App.jsx`, with theorems
settling the behavioural claims about request construction, client-side
validation and error-message formatting.

Modelling conventions:
* JavaScript runtime values that flow through the client are embedded as the
  inductive `JsVal`; a JS `undefined` field is an `Option.none` at the field
  position (the code only tests `!== undefined`, so an explicitly-passed
  `undefined` behaves as an absent field, which `Option` captures directly).
* Host-environment primitives that the repository merely calls — `JSON.parse`,
  `Date` parsing and `Date.prototype.toISOString` — are not part of the
  repository; they enter the embedding as inputs (`JsonParse`, a `toISO`
  function parameter) so each theorem quantifies over their outcome.
* JS `substring(0, 200)` counts UTF-16 code units; the embedding uses
  `String.take 200` (code points). The messages involved in the claims are
  BMP text where the two coincide character-for-character.
* An `async` handler is embedded as a pure function from the pre-state and
  the outcome of its single awaited client call to the post-state; the
  outcome argument is consulted only on the branch that actually issues the
  call. A separate `...Call` function returns `none` when the handler
  returns before issuing any request, and the request arguments otherwise.
-/

/-- JavaScript runtime values as they appear in the todo client: `null`,
strings, booleans, numbers, and `Date` objects (a `Date` is identified by
its `toISOString` rendering, which is all the client ever extracts). -/
inductive JsVal where
  | null
  | str (s : String)
  | bool (b : Bool)
  | num (n : Int)
  | date (iso : String)
deriving DecidableEq, Repr

/-- JS truthiness for the values above: `null` is falsy, `""` is falsy,
`false` is falsy, `0` is falsy, any `Date` object is truthy. -/
def jsTruthy : JsVal → Bool
  | .null => false
  | .str s => s ≠ ""
  | .bool b => b
  | .num n => n ≠ 0
  | .date _ => true

/-- Embedding of `String.prototype.trim`: drop leading and trailing
whitespace characters. Defined by structural recursion over the character
list so that it evaluates on concrete inputs. -/
def jsTrim (s : String) : String :=
  ⟨((s.data.dropWhile Char.isWhitespace).reverse.dropWhile Char.isWhitespace).reverse⟩

/-- Embedding of `dueDate instanceof Date ? dueDate.toISOString() : dueDate`
(todoApi.js lines 145 and 208-212): a `Date` becomes its ISO string, every
other value passes through unchanged. -/
def dateToISOString : JsVal → JsVal
  | .date iso => .str iso
  | v => v

/-- Embedding of `typeof x === 'string' ? x.trim() : x`
(todoApi.js lines 198 and 201-205). -/
def trimIfString : JsVal → JsVal
  | .str s => .str (jsTrim s)
  | v => v

/-- Embedding of todoApi.js line 3:
`${import.meta.env.VITE_API_BASE_URL || 'http://localhost:5000'}/todos`.
The environment variable is an input; JS `||` treats an empty string as
absent. -/
def API_BASE_URL (viteApiBaseUrl : Option String) : String :=
  (match viteApiBaseUrl with
    | some s => if s = "" then "http://localhost:5000" else s
    | none => "http://localhost:5000") ++ "/todos"

/-- JS template-literal rendering of a boolean (`${isCompleted}`). -/
def boolToJsString (b : Bool) : String :=
  if b then "true" else "false"

/-- Embedding of the URL construction in `fetchTodos` (todoApi.js lines
82-90): the base collection URL, with `?isCompleted=<b>` appended exactly
when the parameter is not `undefined`. -/
def fetchTodosUrl (env : Option String) (isCompleted : Option Bool) : String :=
  match isCompleted with
  | none => API_BASE_URL env
  | some b => API_BASE_URL env ++ "?isCompleted=" ++ boolToJsString b

/-- Outcome of the host-provided `JSON.parse` on a response body (App never
parses JSON itself). `json message error` is a successful parse whose
optional-chaining lookups `errorData?.message` / `errorData?.error` give the
recorded optional strings (absent or non-string fields are `none`). -/
inductive JsonParse where
  | notJson
  | json (message : Option String) (error : Option String)
deriving DecidableEq, Repr

/-- Outcome of `await response.clone().text()` in `handleResponseError`:
either the read throws, or it yields `text` whose `JSON.parse` outcome is
`parsed`. -/
inductive BodyText where
  | readFailed
  | readOk (text : String) (parsed : JsonParse)
deriving DecidableEq, Repr

/-- Embedding of the status-keyed fallback messages in `handleResponseError`
(todoApi.js lines 33-46), used only when reading the body failed. -/
def statusFallbackMessage (status : Nat) (base : String) : String :=
  if status = 500 then "서버 내부 오류가 발생했습니다. 잠시 후 다시 시도해주세요."
  else if status = 404 then "요청한 리소스를 찾을 수 없습니다."
  else if status = 400 then "잘못된 요청입니다. 입력값을 확인해주세요."
  else if status = 401 then "인증이 필요합니다."
  else if status = 403 then "접근 권한이 없습니다."
  else base

/-- JS `a || fallback` for an optional string `a`: an absent or empty string
falls through to the fallback. -/
def jsOrElse (v : Option String) (fallback : String) : String :=
  match v with
  | some s => if s = "" then fallback else s
  | none => fallback

/-- Embedding of the message computed by `handleResponseError` (todoApi.js
lines 10-46) before the 500-specific append step: start from
`서버 오류 (status)`; if the body was read and parsed as JSON use
`message || error || base`; if the body is non-JSON use its first 200
characters when non-empty; if the read failed use the status-keyed fallback. -/
def baseErrorMessage (status : Nat) (body : BodyText) : String :=
  let base := "서버 오류 (" ++ toString status ++ ")"
  match body with
  | .readFailed => statusFallbackMessage status base
  | .readOk text parsed =>
    match parsed with
    | .json message error => jsOrElse message (jsOrElse error base)
    | .notJson => if text ≠ "" then text.take 200 else base

/-- The troubleshooting text appended for status 500
(todoApi.js lines 49-54). -/
def remediation500Suffix : String :=
  "\n\n서버 측 문제일 수 있습니다. 가능한 원인:\n1. 데이터베이스 연결 문제\n2. 서버 환경변수 설정 문제\n3. 서버 코드 오류\n\nHeroku 로그를 확인하거나 잠시 후 다시 시도해주세요."

/-- Embedding of `handleResponseError` (todoApi.js lines 10-63): the message
of the thrown `Error`, i.e. the base message with the remediation text
appended when — and only when — the status is exactly 500 (line 49 tests
`response.status === 500`). -/
def handleResponseError (status : Nat) (body : BodyText) : String :=
  let m := baseErrorMessage status body
  if status = 500 then m ++ remediation500Suffix else m

/-- The JSON request body built by `createTodo` (todoApi.js lines 135-150):
`title` is always present; the other three fields are optional. -/
structure CreateBody where
  title : String
  description : Option String
  dueDate : Option JsVal
  isCompleted : Option Bool
deriving DecidableEq, Repr

/-- Embedding of the `requestData` construction in `createTodo`
(todoApi.js lines 132-150). The JS defaults are `description = ''`,
`dueDate = null`, `isCompleted = false`, so a call providing only a title is
`createTodoRequestData t "" .null (.bool false)`. `description` is included
when truthy and non-blank after trimming; `dueDate` when truthy (a `Date`
rendered as its ISO string); `isCompleted` whenever its value is of boolean
type — which the default `false` is. -/
def createTodoRequestData (title : String) (description : String)
    (dueDate : JsVal) (isCompleted : JsVal) : CreateBody :=
  { title := jsTrim title
    description :=
      if description ≠ "" && jsTrim description ≠ "" then some (jsTrim description) else none
    dueDate := if jsTruthy dueDate then some (dateToISOString dueDate) else none
    isCompleted := match isCompleted with | .bool b => some b | _ => none }

/-- The `updateData` argument of `updateTodo`, and equally the request body
it builds: four optional fields, `none` meaning the field is `undefined`
(absent). -/
structure UpdateData where
  title : Option JsVal := none
  description : Option JsVal := none
  dueDate : Option JsVal := none
  isCompleted : Option JsVal := none
deriving DecidableEq, Repr

/-- Embedding of the `requestData` construction in `updateTodo` (todoApi.js
lines 195-217): each field is copied exactly when it was defined in
`updateData`; strings are trimmed, a `Date` due date becomes its ISO string,
and `isCompleted` is coerced with `Boolean(...)` (JS truthiness). -/
def updateTodoRequestData (u : UpdateData) : UpdateData :=
  { title := u.title.map trimIfString
    description := u.description.map trimIfString
    dueDate := u.dueDate.map dateToISOString
    isCompleted := u.isCompleted.map (fun v => .bool (jsTruthy v)) }

/-- Embedding of the ID guard shared by `updateTodo` and `deleteTodo`
(todoApi.js lines 190 and 252): `!id || id === 'undefined' || id === 'null'`
rejects the id. -/
def isValidTodoId (id : String) : Bool :=
  !(id = "" || id = "undefined" || id = "null")

/-- The message of the validation error thrown for an invalid id
(todoApi.js lines 191 and 253). -/
def invalidIdMessage : String := "유효하지 않은 할일 ID입니다"

/-- Embedding of `updateTodo` up to the point the HTTP request is issued
(todoApi.js lines 187-225): an invalid id throws the validation error before
any `fetch`; otherwise the PATCH is issued at `API_BASE_URL/id` with the
filtered body. `Except.error` therefore means no request was made. -/
def updateTodo (env : Option String) (id : String) (u : UpdateData) :
    Except String (String × UpdateData) :=
  if !isValidTodoId id then .error invalidIdMessage
  else .ok (API_BASE_URL env ++ "/" ++ id, updateTodoRequestData u)

/-- Embedding of `deleteTodo` up to the point the HTTP request is issued
(todoApi.js lines 249-258): an invalid id throws the validation error before
any `fetch`; otherwise the DELETE is issued at `API_BASE_URL/id`. -/
def deleteTodo (env : Option String) (id : String) : Except String String :=
  if !isValidTodoId id then .error invalidIdMessage
  else .ok (API_BASE_URL env ++ "/" ++ id)

/-- A todo entity as the App component consumes it (App.jsx): identifier,
title, description, optional due date, completion flag. -/
structure Todo where
  _id : String
  title : String
  description : String
  dueDate : Option String
  isCompleted : Bool
deriving DecidableEq, Repr

/-- The `editingData` draft state of App.jsx line 15. -/
structure EditingData where
  title : String
  description : String
  dueDate : String
  isCompleted : Bool
deriving DecidableEq, Repr

/-- The view state held by the App component (App.jsx lines 7-21). -/
structure AppState where
  todos : List Todo
  titleInput : String
  descriptionInput : String
  dueDateInput : String
  editingTodoId : Option String
  editingData : EditingData
  isLoading : Bool
  errorMessage : String
  filter : String
deriving DecidableEq, Repr

/-- Embedding of the filter dispatch in `loadTodos` (App.jsx lines 34-41):
`"completed"` passes `true` to `fetchTodos`, `"pending"` passes `false`,
anything else (the `"all"` branch) passes no argument. -/
def loadTodosFilterParam (filter : String) : Option Bool :=
  if filter = "completed" then some true
  else if filter = "pending" then some false
  else none

/-- Embedding of `loadTodos` (App.jsx lines 29-53) as a state transition on
the outcome of the awaited fetch: success replaces the list wholesale,
failure stores the error message; the `finally` block clears the loading
flag on both paths. -/
def loadTodos (s : AppState) (outcome : Except String (List Todo)) : AppState :=
  match outcome with
  | .ok todosData => { s with isLoading := false, errorMessage := "", todos := todosData }
  | .error msg => { s with isLoading := false, errorMessage := msg }

/-- The validation message set when a submitted title is blank
(App.jsx lines 61 and 120). -/
def blankTitleMessage : String := "할일 제목을 입력해주세요."

/-- The client call issued by `handleAddTodo` (App.jsx lines 56-70), or
`none` when the blank-title guard returns first. The arguments are those of
`createTodo(titleInput, descriptionInput, dueDate, false)`, where
`dueDate = dueDateInput ? new Date(dueDateInput) : null`; `toISO` is the
host Date parse-and-render. -/
def handleAddTodoCall (toISO : String → String) (s : AppState) :
    Option (String × String × JsVal × JsVal) :=
  if jsTrim s.titleInput = "" then none
  else some (s.titleInput, s.descriptionInput,
    (if s.dueDateInput ≠ "" then JsVal.date (toISO s.dueDateInput) else JsVal.null),
    JsVal.bool false)

/-- Embedding of `handleAddTodo` (App.jsx lines 56-85) as a state
transition: a blank trimmed title sets the validation message and returns
before any client call (so `outcome` is irrelevant on that branch); success
prepends the created todo and clears the three input fields; failure stores
the error message; the `finally` block clears the loading flag. -/
def handleAddTodo (s : AppState) (outcome : Except String Todo) : AppState :=
  if jsTrim s.titleInput = "" then { s with errorMessage := blankTitleMessage }
  else
    match outcome with
    | .ok newTodo =>
        { s with
          isLoading := false
          errorMessage := ""
          todos := newTodo :: s.todos
          titleInput := ""
          descriptionInput := ""
          dueDateInput := "" }
    | .error msg => { s with isLoading := false, errorMessage := msg }

/-- Embedding of the `updateData` object built by `handleSaveEdit`
(App.jsx lines 127-137): title, description and isCompleted are always
present; `dueDate` is added only when the draft string is truthy
(non-empty), converted to an ISO string by the host (`toISO`). -/
def saveEditUpdateData (toISO : String → String) (e : EditingData) : UpdateData :=
  { title := some (.str e.title)
    description := some (.str e.description)
    isCompleted := some (.bool e.isCompleted)
    dueDate := if e.dueDate ≠ "" then some (.str (toISO e.dueDate)) else none }

/-- The client call issued by `handleSaveEdit` (App.jsx lines 117-139), or
`none` when the blank-title guard returns first. -/
def handleSaveEditCall (toISO : String → String) (s : AppState) : Option UpdateData :=
  if jsTrim s.editingData.title = "" then none
  else some (saveEditUpdateData toISO s.editingData)

/-- Embedding of `handleSaveEdit` (App.jsx lines 117-156) as a state
transition: a blank trimmed draft title sets the validation message and
returns before any client call; success substitutes the server's entity for
the matching id and leaves edit mode; failure stores the error message; the
`finally` block clears the loading flag. -/
def handleSaveEdit (s : AppState) (todoId : String) (outcome : Except String Todo) :
    AppState :=
  if jsTrim s.editingData.title = "" then { s with errorMessage := blankTitleMessage }
  else
    match outcome with
    | .ok updatedTodo =>
        { s with
          isLoading := false
          errorMessage := ""
          todos := s.todos.map fun t => if t._id = todoId then updatedTodo else t
          editingTodoId := none
          editingData :=
            { title := "", description := "", dueDate := "", isCompleted := false } }
    | .error msg => { s with isLoading := false, errorMessage := msg }

/-- Embedding of `handleToggleComplete` (App.jsx lines 159-178): always
issues `updateTodo(todo._id, { isCompleted: !todo.isCompleted })`; success
substitutes the server's entity, failure stores the error message; the
`finally` block clears the loading flag. -/
def handleToggleComplete (s : AppState) (todo : Todo) (outcome : Except String Todo) :
    AppState :=
  match outcome with
  | .ok updatedTodo =>
      { s with
        isLoading := false
        errorMessage := ""
        todos := s.todos.map fun t => if t._id = todo._id then updatedTodo else t }
  | .error msg => { s with isLoading := false, errorMessage := msg }

/-- Embedding of `handleDeleteTodo` (App.jsx lines 181-202): an unconfirmed
dialog returns with the state untouched; otherwise the delete call runs,
success filters the todo out, failure stores the error message, and the
`finally` block clears the loading flag. -/
def handleDeleteTodo (s : AppState) (todoId : String) (confirmed : Bool)
    (outcome : Except String Unit) : AppState :=
  if !confirmed then s
  else
    match outcome with
    | .ok _ =>
        { s with
          isLoading := false
          errorMessage := ""
          todos := s.todos.filter fun t => t._id ≠ todoId }
    | .error msg => { s with isLoading := false, errorMessage := msg }

/-- A concrete todo entity used to instantiate handler theorems. -/
def sampleTodo : Todo :=
  { _id := "t1", title := "Buy milk", description := "", dueDate := none,
    isCompleted := false }

/-- A concrete view state mid-action (loading, filled inputs, edit draft for
`sampleTodo`), used to instantiate handler theorems. -/
def activeState : AppState :=
  { todos := [sampleTodo]
    titleInput := "Buy milk"
    descriptionInput := ""
    dueDateInput := ""
    editingTodoId := some "t1"
    editingData := { title := "Buy milk", description := "", dueDate := "", isCompleted := true }
    isLoading := true
    errorMessage := ""
    filter := "all" }

/-- A concrete view state whose create input and edit draft titles are
whitespace-only, used to instantiate the blank-title guard theorem. -/
def blankTitleState : AppState :=
  { todos := [sampleTodo]
    titleInput := "   "
    descriptionInput := "d"
    dueDateInput := ""
    editingTodoId := some "t1"
    editingData := { title := " ", description := "", dueDate := "", isCompleted := false }
    isLoading := false
    errorMessage := ""
    filter := "all" }

set_option maxRecDepth 8192 in
/-- C1 counterexample: a create call providing only the title `"Buy milk"`
(all other arguments left to their JS defaults `''`, `null`, `false`) builds
a request body that also contains `isCompleted`, because the default `false`
passes the `typeof isCompleted === 'boolean'` test — so the body does not
consist of the single field `title`. -/
theorem createTodo_titleOnly_counterexample :
    (createTodoRequestData "Buy milk" "" JsVal.null (JsVal.bool false)).title = "Buy milk" ∧
    (createTodoRequestData "Buy milk" "" JsVal.null (JsVal.bool false)).isCompleted
      = some false := by
  constructor
  · decide
  · decide

/-- C1 amended: for every create call whose only provided argument is a
title, the request body contains exactly the trimmed title and
`isCompleted = false`; `description` and `dueDate` are absent. -/
theorem createTodo_titleOnly_body (title : String) :
    createTodoRequestData title "" JsVal.null (JsVal.bool false)
      = { title := jsTrim title, description := none, dueDate := none,
          isCompleted := some false } := by
  simp [createTodoRequestData, jsTruthy]

set_option maxRecDepth 8192 in
/-- C2 counterexample: a 502 response with readable non-JSON body `"boom"`
yields just `"boom"`, without the troubleshooting guidance — the guidance is
not appended for a server-fault status other than 500. -/
theorem handleResponseError_502_counterexample :
    handleResponseError 502 (BodyText.readOk "boom" JsonParse.notJson) = "boom" ∧
    "boom" ≠ "boom" ++ remediation500Suffix := by
  constructor
  · decide
  · decide

/-- C2 amended: `handleResponseError` appends the troubleshooting guidance
to the base message exactly for status 500; any other status (in particular
every other 5xx status) yields the base message unchanged. -/
theorem handleResponseError_remediation_only_500 (status : Nat) (body : BodyText)
    (h : status ≠ 500) :
    handleResponseError 500 body = baseErrorMessage 500 body ++ remediation500Suffix ∧
    handleResponseError status body = baseErrorMessage status body := by
  constructor
  · simp [handleResponseError]
  · simp [handleResponseError, h]

/-- C2 witness: the amended theorem instantiated at status 503 with an
unreadable body. -/
theorem handleResponseError_remediation_only_500_witness :
    handleResponseError 500 BodyText.readFailed
      = baseErrorMessage 500 BodyText.readFailed ++ remediation500Suffix ∧
    handleResponseError 503 BodyText.readFailed
      = baseErrorMessage 503 BodyText.readFailed :=
  handleResponseError_remediation_only_500 503 BodyText.readFailed (by decide)

set_option maxRecDepth 8192 in
/-- C3 counterexample: a 404 response whose body is readable non-JSON text
`"nope"` yields `"nope"`, not the fixed resource-not-found message — the
fixed message is not produced for every 404 response. -/
theorem handleResponseError_404_counterexample :
    handleResponseError 404 (BodyText.readOk "nope" JsonParse.notJson) = "nope" ∧
    "nope" ≠ "요청한 리소스를 찾을 수 없습니다." := by
  constructor
  · decide
  · decide

set_option maxRecDepth 8192 in
/-- C3 amended: a 404 response whose body cannot be read yields the fixed
resource-not-found message. -/
theorem handleResponseError_404_readFailed :
    handleResponseError 404 BodyText.readFailed = "요청한 리소스를 찾을 수 없습니다." := by
  decide

set_option maxRecDepth 8192 in
/-- C4: for every environment configuration, the filter `"completed"` makes
the list request URL carry exactly `isCompleted=true`, `"pending"` exactly
`isCompleted=false`, and `"all"` no query parameter at all. -/
theorem loadTodos_filter_query (env : Option String) :
    fetchTodosUrl env (loadTodosFilterParam "completed")
      = API_BASE_URL env ++ "?isCompleted=true" ∧
    fetchTodosUrl env (loadTodosFilterParam "pending")
      = API_BASE_URL env ++ "?isCompleted=false" ∧
    fetchTodosUrl env (loadTodosFilterParam "all") = API_BASE_URL env := by
  refine ⟨?_, ?_, ?_⟩ <;>
    simp [loadTodosFilterParam, fetchTodosUrl, boolToJsString, String.append_assoc]

/-- C5: the body built by `updateTodo` contains each of the four mutable
fields exactly when that field was defined in `updateData`, and a defined
`isCompleted` always lands in the body as a strict boolean (the
`Boolean(...)` coercion of the passed value). -/
theorem updateTodo_partial_fields (u : UpdateData) :
    ((updateTodoRequestData u).title.isSome ↔ u.title.isSome) ∧
    ((updateTodoRequestData u).description.isSome ↔ u.description.isSome) ∧
    ((updateTodoRequestData u).dueDate.isSome ↔ u.dueDate.isSome) ∧
    ((updateTodoRequestData u).isCompleted.isSome ↔ u.isCompleted.isSome) ∧
    ∀ v, u.isCompleted = some v →
      (updateTodoRequestData u).isCompleted = some (JsVal.bool (jsTruthy v)) := by
  refine ⟨?_, ?_, ?_, ?_, ?_⟩
  · simp [updateTodoRequestData]
  · simp [updateTodoRequestData]
  · simp [updateTodoRequestData]
  · simp [updateTodoRequestData]
  · intro v hv
    simp [updateTodoRequestData, hv]

/-- C5 witness: the theorem instantiated at an update passing only
`isCompleted` as the (truthy) number 3, which the body carries as the strict
boolean `true`. -/
theorem updateTodo_partial_fields_witness :
    (updateTodoRequestData { isCompleted := some (JsVal.num 3) }).isCompleted
      = some (JsVal.bool (jsTruthy (JsVal.num 3))) :=
  (updateTodo_partial_fields { isCompleted := some (JsVal.num 3) }).2.2.2.2
    (JsVal.num 3) rfl

/-- C6: a delete or update call whose identifier is `""`, `"undefined"` or
`"null"` raises the client-side validation error, so no HTTP request is
issued (the embedding returns `Except.error` strictly before the request is
built). -/
theorem invalid_id_rejected (env : Option String) (id : String) (u : UpdateData)
    (h : id = "" ∨ id = "undefined" ∨ id = "null") :
    deleteTodo env id = Except.error invalidIdMessage ∧
    updateTodo env id u = Except.error invalidIdMessage := by
  rcases h with h | h | h <;> subst h <;>
    exact ⟨by simp [deleteTodo, isValidTodoId], by simp [updateTodo, isValidTodoId]⟩

/-- C6 witness: the theorem instantiated at the identifier `"undefined"`. -/
theorem invalid_id_rejected_witness :
    deleteTodo none "undefined" = Except.error invalidIdMessage ∧
    updateTodo none "undefined" {} = Except.error invalidIdMessage :=
  invalid_id_rejected none "undefined" {} (Or.inr (Or.inl rfl))

/-- C7: a create submission whose title is blank after trimming, and a
save-edit submission whose draft title is blank after trimming, each set the
validation message and return before any client call, leaving every other
state field — in particular the todo list — unchanged. -/
theorem blank_title_rejected (toISO : String → String) (s : AppState)
    (o : Except String Todo) (todoId : String) :
    (jsTrim s.titleInput = "" →
      handleAddTodoCall toISO s = none ∧
      handleAddTodo s o = { s with errorMessage := blankTitleMessage }) ∧
    (jsTrim s.editingData.title = "" →
      handleSaveEditCall toISO s = none ∧
      handleSaveEdit s todoId o = { s with errorMessage := blankTitleMessage }) := by
  constructor
  · intro h
    exact ⟨by simp [handleAddTodoCall, h], by simp [handleAddTodo, h]⟩
  · intro h
    exact ⟨by simp [handleSaveEditCall, h], by simp [handleSaveEdit, h]⟩

set_option maxRecDepth 8192 in
/-- C7 witness: the theorem instantiated at a state whose create input and
edit draft titles are whitespace-only, with both guards discharged. -/
theorem blank_title_rejected_witness :
    (handleAddTodoCall id blankTitleState = none ∧
      handleAddTodo blankTitleState (Except.error "e")
        = { blankTitleState with errorMessage := blankTitleMessage }) ∧
    (handleSaveEditCall id blankTitleState = none ∧
      handleSaveEdit blankTitleState "t1" (Except.error "e")
        = { blankTitleState with errorMessage := blankTitleMessage }) :=
  ⟨(blank_title_rejected id blankTitleState (Except.error "e") "t1").1 (by decide),
   (blank_title_rejected id blankTitleState (Except.error "e") "t1").2 (by decide)⟩

/-- C8: every handler that issues a client call finishes with the loading
flag cleared, on the success outcome and on the failure outcome alike:
`loadTodos` and `handleToggleComplete` always call; `handleAddTodo` and
`handleSaveEdit` call unless the blank-title guard returned first; a
confirmed `handleDeleteTodo` always calls. -/
theorem loading_cleared (toISO : String → String) (s : AppState)
    (lo : Except String (List Todo)) (oAdd oSave oTog : Except String Todo)
    (oDel : Except String Unit) (todo : Todo) (todoId : String) :
    (loadTodos s lo).isLoading = false ∧
    (handleAddTodoCall toISO s ≠ none → (handleAddTodo s oAdd).isLoading = false) ∧
    (handleSaveEditCall toISO s ≠ none →
      (handleSaveEdit s todoId oSave).isLoading = false) ∧
    (handleToggleComplete s todo oTog).isLoading = false ∧
    (handleDeleteTodo s todoId true oDel).isLoading = false := by
  refine ⟨?_, ?_, ?_, ?_, ?_⟩
  · cases lo <;> simp [loadTodos]
  · intro h
    by_cases hb : jsTrim s.titleInput = ""
    · exact absurd (by simp [handleAddTodoCall, hb]) h
    · cases oAdd <;> simp [handleAddTodo, hb]
  · intro h
    by_cases hb : jsTrim s.editingData.title = ""
    · exact absurd (by simp [handleSaveEditCall, hb]) h
    · cases oSave <;> simp [handleSaveEdit, hb]
  · cases oTog <;> simp [handleToggleComplete]
  · cases oDel <;> simp [handleDeleteTodo]

set_option maxRecDepth 8192 in
/-- C8 witness: the theorem instantiated at a loading state with non-blank
titles, on failure outcomes for every action, the two guarded hypotheses
discharged. -/
theorem loading_cleared_witness :
    (loadTodos activeState (Except.error "e")).isLoading = false ∧
    (handleAddTodo activeState (Except.error "e")).isLoading = false ∧
    (handleSaveEdit activeState "t1" (Except.error "e")).isLoading = false ∧
    (handleToggleComplete activeState sampleTodo (Except.error "e")).isLoading = false ∧
    (handleDeleteTodo activeState "t1" true (Except.error "e")).isLoading = false := by
  have h := loading_cleared id activeState (Except.error "e") (Except.error "e")
    (Except.error "e") (Except.error "e") (Except.error "e") sampleTodo "t1"
  exact ⟨h.1, h.2.1 (by decide), h.2.2.1 (by decide), h.2.2.2.1, h.2.2.2.2⟩

set_option maxRecDepth 8192 in
/-- C9 counterexample: a 500 response with readable non-JSON body `"boom"`
displays `"boom"` with the remediation suffix appended, which is not the
body text truncated to 200 characters (that truncation is `"boom"` itself). -/
theorem nonJson_truncation_counterexample :
    handleResponseError 500 (BodyText.readOk "boom" JsonParse.notJson)
      = "boom" ++ remediation500Suffix ∧
    "boom" ++ remediation500Suffix ≠ "boom" := by
  constructor
  · decide
  · decide

/-- C9 amended: for an error response with readable non-empty non-JSON body,
the displayed message is the body text truncated to at most 200 characters —
except that for status 500 the remediation suffix is appended after that
truncation. -/
theorem nonJson_body_truncated (status : Nat) (text : String)
    (hne : text ≠ "") (h500 : status ≠ 500) :
    handleResponseError status (BodyText.readOk text JsonParse.notJson)
      = text.take 200 ∧
    handleResponseError 500 (BodyText.readOk text JsonParse.notJson)
      = text.take 200 ++ remediation500Suffix ∧
    (text.take 200).length ≤ 200 := by
  refine ⟨?_, ?_, ?_⟩
  · simp [handleResponseError, baseErrorMessage, hne, h500]
  · simp [handleResponseError, baseErrorMessage, hne]
  · rw [String.take_eq]
    have h : (String.mk (text.1.take 200)).length = (text.1.take 200).length := rfl
    rw [h, List.length_take]
    omega

/-- C9 witness: the amended theorem instantiated at status 404 with the
body `"boom"`. -/
theorem nonJson_body_truncated_witness :
    handleResponseError 404 (BodyText.readOk "boom" JsonParse.notJson)
      = "boom".take 200 ∧
    handleResponseError 500 (BodyText.readOk "boom" JsonParse.notJson)
      = "boom".take 200 ++ remediation500Suffix ∧
    ("boom".take 200).length ≤ 200 :=
  nonJson_body_truncated 404 "boom" (by decide) (by decide)

/-- C10: a save-edit whose draft due-date string is empty builds an
`updateData` without a `dueDate` field, and the request body `updateTodo`
builds from it also carries no `dueDate` field — so the saved edit cannot
clear an existing due date. -/
theorem saveEdit_empty_dueDate_omitted (toISO : String → String) (e : EditingData)
    (h : e.dueDate = "") :
    (saveEditUpdateData toISO e).dueDate = none ∧
    (updateTodoRequestData (saveEditUpdateData toISO e)).dueDate = none := by
  constructor
  · simp [saveEditUpdateData, h]
  · simp [updateTodoRequestData, saveEditUpdateData, h]

/-- C10 witness: the theorem instantiated at a draft with an empty due-date
string. -/
theorem saveEdit_empty_dueDate_omitted_witness :
    (saveEditUpdateData id
        { title := "T", description := "", dueDate := "", isCompleted := false }).dueDate
      = none ∧
    (updateTodoRequestData (saveEditUpdateData id
        { title := "T", description := "", dueDate := "", isCompleted := false })).dueDate
      = none :=
  saveEdit_empty_dueDate_omitted id
    { title := "T", description := "", dueDate := "", isCompleted := false } rfl
